import Mathlib

/-!
Verification of the syncspace-teams access-control model.

The core of the repository is a relational schema (profiles, teams,
team_members, tasks) guarded by row-level security policies built from
two SQL predicate functions, `is_team_member` and `is_team_owner`,
plus trigger-based automation (`update_updated_at_column`,
`handle_new_user`).  This development embeds the schema as Lean
structures, the predicates and policies as executable functions over a
database state, and the client-side operations (dashboard member
count, team creation) as functions over that state, and proves the
specified properties about them.

Identity references (UUID columns) are embedded as `Nat`; timestamps
as `Nat`.
-/

namespace SyncSpace

abbrev UUID := Nat

/-- Row of `public.profiles` (schema file, lines 2-8). -/
structure Profile where
  id : UUID
  user_id : UUID
  username : String
  created_at : Nat
  updated_at : Nat
deriving DecidableEq, Repr

/-- Row of `public.teams` (schema file, lines 11-18). -/
structure Team where
  id : UUID
  name : String
  teamDescription : Option String
  owner_id : UUID
  created_at : Nat
  updated_at : Nat
deriving DecidableEq, Repr

/-- Row of `public.team_members` (schema file, lines 21-29). -/
structure TeamMember where
  id : UUID
  team_id : UUID
  user_id : UUID
  role : String
  invited_by : Option UUID
  joined_at : Nat
deriving DecidableEq, Repr

/-- Row of `public.tasks` (schema file, lines 32-44). -/
structure Task where
  id : UUID
  team_id : UUID
  title : String
  taskDescription : Option String
  status : String
  priority : String
  due_date : Option Nat
  assigned_to : Option UUID
  created_by : UUID
  created_at : Nat
  updated_at : Nat
deriving DecidableEq, Repr

/-- Row of `auth.users` as consumed by `handle_new_user`: the id, the
email address, and the raw user metadata (a JSON object; only textual
fields are relevant, so it is embedded as an association list). -/
structure AuthUser where
  id : UUID
  email : String
  raw_user_meta_data : List (String × String)
deriving DecidableEq, Repr

/-- The database state: the four public tables. -/
structure DBState where
  profiles : List Profile
  teams : List Team
  team_members : List TeamMember
  tasks : List Task
deriving DecidableEq, Repr

/-- Error taxonomy observed by a caller: a row-level-security denial
(carrying no further information) or a constraint violation. -/
inductive DBError where
  | denied
  | constraintViolation
deriving DecidableEq, Repr

/-- `public.is_team_member(_user_id, _team_id)` (migration file,
lines 2-15): `SELECT EXISTS (SELECT 1 FROM public.team_members WHERE
user_id = _user_id AND team_id = _team_id)`.  SECURITY DEFINER, so it
reads the table directly, bypassing row-level security. -/
def is_team_member (s : DBState) (u t : UUID) : Bool :=
  s.team_members.any (fun m => m.user_id == u && m.team_id == t)

/-- `public.is_team_owner(_user_id, _team_id)` (migration file,
lines 17-30): `SELECT EXISTS (SELECT 1 FROM public.teams WHERE
owner_id = _user_id AND id = _team_id)`. -/
def is_team_owner (s : DBState) (u t : UUID) : Bool :=
  s.teams.any (fun tm => tm.owner_id == u && tm.id == t)

/-- The SQL functions are declared `STABLE` (single read-only SELECT):
calling `is_team_member` returns its boolean together with an
unchanged database state. -/
def queryIsMember (s : DBState) (u t : UUID) : Bool × DBState :=
  (is_team_member s u t, s)

/-- Policy "Users can view teams they belong to" (schema file,
lines 99-105): `auth.uid() = owner_id OR is_team_member(auth.uid(), id)`. -/
def teamSelectPolicy (s : DBState) (actor : UUID) (t : Team) : Bool :=
  actor == t.owner_id || is_team_member s actor t.id

/-- Policy "Users can create teams" (schema file, lines 107-110):
WITH CHECK `auth.uid() = owner_id`. -/
def teamInsertCheck (actor : UUID) (t : Team) : Bool :=
  actor == t.owner_id

/-- Effective select predicate on `team_members`: the permissive
policies "Users can view team members of teams they belong to"
(USING `is_team_member(auth.uid(), team_id)`, schema file lines
123-126) and "Team owners can manage team members" (FOR ALL, USING
`is_team_owner(auth.uid(), team_id)`, lines 128-132) are OR-combined. -/
def teamMemberSelectPolicy (s : DBState) (actor : UUID) (m : TeamMember) : Bool :=
  is_team_member s actor m.team_id || is_team_owner s actor m.team_id

/-- Effective insert check on `team_members`: the permissive policies
"Team owners can manage team members" (WITH CHECK
`is_team_owner(auth.uid(), team_id)`, schema file lines 128-132) and
"Users can join teams when invited" (WITH CHECK
`auth.uid() = user_id`, lines 134-137) are OR-combined. -/
def teamMemberInsertCheck (s : DBState) (actor : UUID) (m : TeamMember) : Bool :=
  is_team_owner s actor m.team_id || actor == m.user_id

/-- Policy "Users can view tasks from teams they belong to" (schema
file, lines 140-143): USING `is_team_member(auth.uid(), team_id)`. -/
def taskSelectPolicy (s : DBState) (actor : UUID) (tk : Task) : Bool :=
  is_team_member s actor tk.team_id

/-- Policy "Team members can create tasks" (schema file, lines
145-151): WITH CHECK `is_team_member(auth.uid(), team_id) AND
auth.uid() = created_by`. -/
def taskInsertCheck (s : DBState) (actor : UUID) (tk : Task) : Bool :=
  is_team_member s actor tk.team_id && actor == tk.created_by

/-- Policy "Team members can update tasks" (schema file, lines
153-156): USING `is_team_member(auth.uid(), team_id)`. -/
def taskUpdatePolicy (s : DBState) (actor : UUID) (tk : Task) : Bool :=
  is_team_member s actor tk.team_id

/-- Policy "Team owners can delete tasks" (schema file, lines
158-161): USING `is_team_owner(auth.uid(), team_id)`. -/
def taskDeletePolicy (s : DBState) (actor : UUID) (tk : Task) : Bool :=
  is_team_owner s actor tk.team_id

/-- CHECK constraint on `tasks.status` (schema file, line 37). -/
def validStatus (st : String) : Bool :=
  st == "todo" || st == "in_progress" || st == "review" || st == "done"

/-- CHECK constraint on `tasks.priority` (schema file, line 38). -/
def validPriority (p : String) : Bool :=
  p == "low" || p == "medium" || p == "high" || p == "urgent"

/-! ## Operations under row-level security

Modelled from the spec: row-level security is enabled on all four
tables (schema file, lines 46-50) but its enforcement is the storage
platform, described by the failure semantics in the spec — a SELECT
returns exactly the rows whose USING predicate holds (denied rows are
filtered, never an error); an INSERT whose WITH CHECK predicate fails
is rejected atomically before any write, the caller observing only a
denial; UPDATE/DELETE silently skip rows whose USING predicate fails.
Constraint violations are a distinct, constraint-identifying error. -/

/-- SELECT on `tasks`: the rows whose select policy holds for the
actor.  A read never errors; denial means the row is absent. -/
def selectTasks (s : DBState) (actor : UUID) : List Task :=
  s.tasks.filter (fun tk => taskSelectPolicy s actor tk)

/-- SELECT on `team_members`: the rows visible to the actor. -/
def selectTeamMembers (s : DBState) (actor : UUID) : List TeamMember :=
  s.team_members.filter (fun m => teamMemberSelectPolicy s actor m)

/-- INSERT on `tasks`: rejected with a bare denial when the WITH CHECK
policy fails, rejected as a constraint violation when a status,
priority or primary-key constraint fails, otherwise the row is
appended. -/
def insertTaskOp (s : DBState) (actor : UUID) (tk : Task) :
    DBState × Except DBError Unit :=
  if !(taskInsertCheck s actor tk) then (s, .error .denied)
  else if !(validStatus tk.status) || !(validPriority tk.priority)
      || s.tasks.any (fun q => q.id == tk.id) then
    (s, .error .constraintViolation)
  else ({ s with tasks := s.tasks ++ [tk] }, .ok ())

/-- INSERT on `team_members`: rejected with a bare denial when the
WITH CHECK policies fail, rejected as a constraint violation when the
UNIQUE(team_id, user_id) or primary-key constraint fails (schema file,
lines 22 and 28), otherwise the row is appended. -/
def insertTeamMemberOp (s : DBState) (actor : UUID) (m : TeamMember) :
    DBState × Except DBError Unit :=
  if !(teamMemberInsertCheck s actor m) then (s, .error .denied)
  else if s.team_members.any
      (fun q => (q.team_id == m.team_id && q.user_id == m.user_id) || q.id == m.id) then
    (s, .error .constraintViolation)
  else ({ s with team_members := s.team_members ++ [m] }, .ok ())

/-- INSERT on `teams`: rejected with a bare denial when the WITH CHECK
policy fails, rejected as a constraint violation when the primary key
collides, otherwise the row is appended. -/
def insertTeamOp (s : DBState) (actor : UUID) (t : Team) :
    DBState × Except DBError Unit :=
  if !(teamInsertCheck actor t) then (s, .error .denied)
  else if s.teams.any (fun q => q.id == t.id) then (s, .error .constraintViolation)
  else ({ s with teams := s.teams ++ [t] }, .ok ())

/-! ## Trigger functions -/

/-- `public.update_updated_at_column()` applied to a `tasks` row
(migration file, lines 32-42; wired BEFORE UPDATE by the trigger at
schema file lines 183-186): `NEW.updated_at = now(); RETURN NEW` —
the stored row is the proposed row with `updated_at` forced to the
current time. -/
def update_updated_at_task (now : Nat) (proposed : Task) : Task :=
  { proposed with updated_at := now }

/-- `public.update_updated_at_column()` applied to a `teams` row
(trigger at schema file lines 178-181). -/
def update_updated_at_team (now : Nat) (proposed : Team) : Team :=
  { proposed with updated_at := now }

/-- `public.update_updated_at_column()` applied to a `profiles` row
(trigger at schema file lines 173-176). -/
def update_updated_at_profile (now : Nat) (proposed : Profile) : Profile :=
  { proposed with updated_at := now }

/-- UPDATE on `tasks`: every row matching the condition of the caller whose
USING policy holds for the actor is replaced by the proposed
row transformation, passed through the BEFORE UPDATE timestamp
trigger; rows failing the policy are silently left unchanged. -/
def updateTasksOp (s : DBState) (actor : UUID) (cond : Task → Bool)
    (f : Task → Task) (now : Nat) : DBState :=
  { s with tasks := s.tasks.map (fun tk =>
      if cond tk && taskUpdatePolicy s actor tk then
        update_updated_at_task now (f tk)
      else tk) }

/-- DELETE on `tasks`: every row matching the condition of the caller whose
USING policy holds for the actor is removed; rows failing the policy
are silently kept. -/
def deleteTasksOp (s : DBState) (actor : UUID) (cond : Task → Bool) : DBState :=
  { s with tasks := s.tasks.filter (fun tk =>
      !(cond tk && taskDeletePolicy s actor tk)) }

/-- Splits a character list on a delimiter character; a list with no
delimiter yields a single field, and each delimiter occurrence starts
a new field, so an input beginning with the delimiter has an empty
first field. -/
def splitOnChar : List Char → Char → List (List Char)
  | [], _ => [[]]
  | c :: cs, d =>
    if c = d then [] :: splitOnChar cs d
    else match splitOnChar cs d with
      | [] => [[c]]
      | r :: rs => (c :: r) :: rs

/-- Postgres `split_part(s, delim, n)`: the n-th field (1-based) of
`s` split on the delimiter, or the empty string when out of range. -/
def split_part (s : String) (delim : Char) (n : Nat) : String :=
  ((splitOnChar s.data delim).getD (n - 1) []).asString

/-- `json ->> key`: the text value under `key`, or NULL (None). -/
def jsonGetText (meta : List (String × String)) (key : String) : Option String :=
  (meta.find? (fun p => p.1 == key)).map (fun p => p.2)

/-- The display handle `handle_new_user` derives for a new account:
`COALESCE` of the username metadata field and the local part of the
email (the text before the first @ character); schema file, line 198. -/
def derivedHandle (u : AuthUser) : String :=
  (jsonGetText u.raw_user_meta_data "username").getD (split_part u.email '@' 1)

/-- `public.handle_new_user()` (schema file, lines 189-202), fired
AFTER INSERT on `auth.users`: inserts one `profiles` row for the new
user, with `username` set to the derived handle.  The insert is subject to the UNIQUE
constraints on `profiles.username` and `profiles.user_id` (schema
file, lines 4-5); a violation fails the insert and leaves the table
unchanged.  `pid` is the generated primary key and `now` the insert
timestamp. -/
def handle_new_user (s : DBState) (pid : UUID) (now : Nat) (u : AuthUser) :
    DBState × Except DBError Unit :=
  if s.profiles.any (fun q =>
      q.username == derivedHandle u || q.user_id == u.id || q.id == pid) then
    (s, .error .constraintViolation)
  else
    ({ s with profiles := s.profiles ++
        [{ id := pid, user_id := u.id, username := derivedHandle u,
           created_at := now, updated_at := now }] }, .ok ())

/-! ## Client-side operations (Application Data-Access Layer) -/

/-- The dashboard member count for a team (`fetchTeams` in
`Index.tsx`, lines 84-87): a head count of `team_members` rows with
`team_id = team.id`, evaluated over the rows the viewing user is
allowed to see under row-level security. -/
def memberCount (s : DBState) (viewer : UUID) (t : UUID) : Nat :=
  ((selectTeamMembers s viewer).filter (fun m => m.team_id == t)).length

/-- `handleSubmit` in `CreateTeam.tsx`: insert a `teams` row with
`owner_id = user.id`, and on success insert a `team_members` row with
`team_id = teamData.id`, `user_id = user.id`, and role `owner`.  When
the second insert fails the first is not rolled back (two separate
requests).  `teamId`/`memberId` are the generated primary keys and
`now` the insert timestamp. -/
def createTeam (s : DBState) (actor teamId memberId : UUID) (nm : String)
    (descr : Option String) (now : Nat) : DBState × Except DBError Unit :=
  let t : Team := { id := teamId, name := nm, teamDescription := descr,
                    owner_id := actor, created_at := now, updated_at := now }
  match insertTeamOp s actor t with
  | (s1, .ok _) =>
      insertTeamMemberOp s1 actor
        { id := memberId, team_id := teamId, user_id := actor,
          role := "owner", invited_by := none, joined_at := now }
  | (s1, .error e) => (s1, .error e)

/-! ## Concrete states used to instantiate the theorems -/

/-- A team with id 10 owned by user 1. -/
def teamTen : Team :=
  { id := 10, name := "Eng", teamDescription := none, owner_id := 1,
    created_at := 0, updated_at := 0 }

/-- A task in team 10 created by user 1. -/
def taskTwenty : Task :=
  { id := 20, team_id := 10, title := "ship", taskDescription := none,
    status := "todo", priority := "medium", due_date := none,
    assigned_to := none, created_by := 1, created_at := 0, updated_at := 0 }

/-- User 1 owns team 10 but holds no membership row in it. -/
def ownerOnlyState : DBState :=
  { profiles := [], teams := [teamTen], team_members := [], tasks := [taskTwenty] }

/-- A membership row for user 2 in team 10. -/
def memberRow : TeamMember :=
  { id := 31, team_id := 10, user_id := 2, role := "member",
    invited_by := some 1, joined_at := 0 }

/-- Team 10 owned by user 1, with user 2 as an explicit member. -/
def memberState : DBState :=
  { profiles := [], teams := [teamTen], team_members := [memberRow],
    tasks := [taskTwenty] }

/-- A membership row naming user 3, used to attempt an insert on
behalf of someone else. -/
def forgedMember : TeamMember :=
  { id := 30, team_id := 10, user_id := 3, role := "member",
    invited_by := some 2, joined_at := 0 }

/-- A task whose `created_by` names user 3 rather than the actor. -/
def tkForged : Task :=
  { id := 21, team_id := 10, title := "forged", taskDescription := none,
    status := "todo", priority := "medium", due_date := none,
    assigned_to := none, created_by := 3, created_at := 0, updated_at := 0 }

/-- The empty database. -/
def emptyState : DBState :=
  { profiles := [], teams := [], team_members := [], tasks := [] }

/-! ## Claims -/

/-- Claim C2: for every (actor, team) pair, `is_team_member` returns
true iff a Membership row exists in `team_members` with that user_id
and team_id, and calling it performs no writes: the state after the
call is the state before it. -/
theorem C2_is_member_iff (s : DBState) (u t : UUID) :
    (is_team_member s u t = true ↔
      ∃ m, m ∈ s.team_members ∧ m.user_id = u ∧ m.team_id = t) ∧
    (queryIsMember s u t).2 = s ∧
    (queryIsMember s u t).1 = is_team_member s u t := by
  refine ⟨?_, rfl, rfl⟩
  simp [is_team_member, List.any_eq_true]

/-- Claim C3: inserting a Membership row whose user field differs from
the requesting actor, when the actor does not own the team, is
rejected by the membership insert policies: the operation returns a
denial and the state — in particular the `team_members` table — is
unchanged. -/
theorem C3_forged_membership_rejected (s : DBState) (actor : UUID)
    (m : TeamMember) (hneq : actor ≠ m.user_id)
    (hnotown : is_team_owner s actor m.team_id = false) :
    insertTeamMemberOp s actor m = (s, .error .denied) := by
  have hc : teamMemberInsertCheck s actor m = false := by
    simp [teamMemberInsertCheck, hnotown, beq_eq_false_iff_ne.mpr hneq]
  simp [insertTeamMemberOp, hc]

/-- Witness for C3: actor 2, who does not own team 10, attempting to
insert a membership row for user 3 is denied and the state is kept. -/
theorem C3_witness :
    insertTeamMemberOp ownerOnlyState 2 forgedMember
      = (ownerOnlyState, .error .denied) :=
  C3_forged_membership_rejected ownerOnlyState 2 forgedMember
    (by decide) (by decide)

/-- Claim C4: the task insert policy permits an insertion iff the
actor is a member of the team of the task and the task field `created_by`
equals the actor; in particular an insertion with `created_by` forged
as another user is rejected, leaving the state unchanged. -/
theorem C4_task_insert_policy (s : DBState) (actor : UUID) (tk : Task) :
    (taskInsertCheck s actor tk = true ↔
      (is_team_member s actor tk.team_id = true ∧ actor = tk.created_by)) ∧
    (actor ≠ tk.created_by → insertTaskOp s actor tk = (s, .error .denied)) := by
  constructor
  · simp [taskInsertCheck]
  · intro hne
    have hc : taskInsertCheck s actor tk = false := by
      simp [taskInsertCheck, beq_eq_false_iff_ne.mpr hne]
    simp [insertTaskOp, hc]

/-- Witness for C4: actor 2 is a member of team 10 but forges
`created_by = 3`; the insertion is denied and the state is kept. -/
theorem C4_witness :
    insertTaskOp memberState 2 tkForged = (memberState, .error .denied) :=
  (C4_task_insert_policy memberState 2 tkForged).2 (by decide)

/-- Claim C5: the task update policy permits an update iff the actor
is a member of the team the task belongs to, the task delete policy
permits a deletion iff the actor owns that team, and a member who is not
the owner can update but never delete. -/
theorem C5_update_vs_delete (s : DBState) (actor : UUID) (tk : Task) :
    (taskUpdatePolicy s actor tk = true ↔
      is_team_member s actor tk.team_id = true) ∧
    (taskDeletePolicy s actor tk = true ↔
      is_team_owner s actor tk.team_id = true) ∧
    (is_team_member s actor tk.team_id = true →
      is_team_owner s actor tk.team_id = false →
      taskUpdatePolicy s actor tk = true ∧ taskDeletePolicy s actor tk = false) :=
  ⟨Iff.rfl, Iff.rfl, fun hm ho => ⟨hm, ho⟩⟩

/-- Witness for C5: user 2 is a member but not the owner of team 10,
so the update policy passes and the delete policy fails on its task. -/
theorem C5_witness :
    taskUpdatePolicy memberState 2 taskTwenty = true ∧
    taskDeletePolicy memberState 2 taskTwenty = false :=
  (C5_update_vs_delete memberState 2 taskTwenty).2.2 (by decide) (by decide)

/-- Claim C10: for every authenticated actor and every team, a
Membership row with `user_id` equal to the actor satisfies the
membership insert check in every state — the self-join policy compares
only the `user_id` of the new row with the actor, so any user can join any
team whose id they know, invited or not. -/
theorem C10_self_join_any_team (s : DBState) (u tid mid : UUID)
    (role : String) (inv : Option UUID) (j : Nat) :
    teamMemberInsertCheck s u
      { id := mid, team_id := tid, user_id := u, role := role,
        invited_by := inv, joined_at := j } = true := by
  simp [teamMemberInsertCheck]

/-- Claim C1 as stated is false: in `ownerOnlyState` user 1 owns
team 10 and holds no Membership row in it, yet the task select,
insert and update policies all evaluate to false on the task of
team 10 —
those three policies test only `is_team_member`, which sees no row. -/
theorem C1_counterexample :
    is_team_owner ownerOnlyState 1 10 = true ∧
    is_team_member ownerOnlyState 1 10 = false ∧
    taskSelectPolicy ownerOnlyState 1 taskTwenty = false ∧
    taskInsertCheck ownerOnlyState 1 taskTwenty = false ∧
    taskUpdatePolicy ownerOnlyState 1 taskTwenty = false := by
  decide

/-- Claim C1 (amended): for every actor who owns a team but has no
Membership row in it, the task select, insert and update policies
evaluate to FALSE for the tasks of that team — membership is checked only
through explicit rows; the owner is nonetheless authorized by the
team select policy (owner or member) and by the task delete policy
(ownership). -/
theorem C1_owner_without_membership (s : DBState) (t : Team) (u : UUID)
    (tk : Task) (hmem : t ∈ s.teams) (hown : t.owner_id = u)
    (hnom : is_team_member s u t.id = false) (htk : tk.team_id = t.id) :
    taskSelectPolicy s u tk = false ∧
    taskInsertCheck s u tk = false ∧
    taskUpdatePolicy s u tk = false ∧
    taskDeletePolicy s u tk = true ∧
    teamSelectPolicy s u t = true := by
  refine ⟨?_, ?_, ?_, ?_, ?_⟩
  · simp [taskSelectPolicy, htk, hnom]
  · simp [taskInsertCheck, htk, hnom]
  · simp [taskUpdatePolicy, htk, hnom]
  · exact List.any_eq_true.mpr ⟨t, hmem, by simp [hown, htk]⟩
  · simp [teamSelectPolicy, hown]

/-- Witness for amended C1: user 1 owns team 10 with no membership
row; select/insert/update are denied, delete and team-select pass. -/
theorem C1_witness :
    taskSelectPolicy ownerOnlyState 1 taskTwenty = false ∧
    taskInsertCheck ownerOnlyState 1 taskTwenty = false ∧
    taskUpdatePolicy ownerOnlyState 1 taskTwenty = false ∧
    taskDeletePolicy ownerOnlyState 1 taskTwenty = true ∧
    teamSelectPolicy ownerOnlyState 1 teamTen = true :=
  C1_owner_without_membership ownerOnlyState teamTen 1 taskTwenty
    (by decide) (by decide) (by decide) (by decide)

/-- Claim C6: an update to a Profile, Team, or Task row stores
`updated_at` equal to the current time, overriding whatever
`updated_at` the caller supplied in the proposed row, and hence (the
clock being at or past every stored timestamp) the stored value is
at least the previous `updated_at` of the row; moreover every task row
present after an update operation either carries `updated_at = now`
or is an untouched original row. -/
theorem C6_updated_at_trigger (now : Nat) (pOld pNew : Profile)
    (tOld tNew : Team) (kOld kNew : Task) (s : DBState) (actor : UUID)
    (cond : Task → Bool) (f : Task → Task) :
    (update_updated_at_profile now pNew).updated_at = now ∧
    (update_updated_at_team now tNew).updated_at = now ∧
    (update_updated_at_task now kNew).updated_at = now ∧
    (pOld.updated_at ≤ now →
      pOld.updated_at ≤ (update_updated_at_profile now pNew).updated_at) ∧
    (tOld.updated_at ≤ now →
      tOld.updated_at ≤ (update_updated_at_team now tNew).updated_at) ∧
    (kOld.updated_at ≤ now →
      kOld.updated_at ≤ (update_updated_at_task now kNew).updated_at) ∧
    (∀ tk', tk' ∈ (updateTasksOp s actor cond f now).tasks →
      tk'.updated_at = now ∨ tk' ∈ s.tasks) := by
  refine ⟨rfl, rfl, rfl, fun h => h, fun h => h, fun h => h, ?_⟩
  intro tk' h
  rcases List.mem_map.mp h with ⟨tk, htk, heq⟩
  by_cases hc : (cond tk && taskUpdatePolicy s actor tk) = true
  · left
    rw [← heq]
    simp [hc, update_updated_at_task]
  · right
    rw [← heq]
    simpa [hc] using htk

/-- Witness for C6: updating at time 5 a row proposed with
`updated_at = 99` stores 5, which is at least the previous value 3;
the single task present after a concrete update carries the new
timestamp. -/
theorem C6_witness :
    (update_updated_at_profile 5
        { id := 1, user_id := 1, username := "a", created_at := 0,
          updated_at := 99 }).updated_at = 5 ∧
    (3 : Nat) ≤ (update_updated_at_task 5
        { taskTwenty with updated_at := 99 }).updated_at ∧
    (taskTwenty.updated_at = 5 ∨ taskTwenty ∈ ownerOnlyState.tasks) := by
  have h := C6_updated_at_trigger 5
    { id := 1, user_id := 1, username := "b", created_at := 0, updated_at := 3 }
    { id := 1, user_id := 1, username := "a", created_at := 0, updated_at := 99 }
    teamTen teamTen { taskTwenty with updated_at := 3 }
    { taskTwenty with updated_at := 99 } ownerOnlyState 5
    (fun _ => false) (fun tk => tk)
  exact ⟨h.1, h.2.2.2.2.2.1 (by decide), h.2.2.2.2.2.2 taskTwenty (by decide)⟩

/-- Claim C9: when the governing policy predicate evaluates to false
the operation leaves the state completely unchanged and the caller
observes only a generic denial: a rejected insert returns the original
state with the bare `denied` error; an unauthorized read yields an
empty result set rather than an error; updates and deletes whose
policy fails everywhere leave the state identical. -/
theorem C9_denied_atomic :
    (∀ s a tk, taskInsertCheck s a tk = false →
      insertTaskOp s a tk = (s, .error .denied)) ∧
    (∀ s a m, teamMemberInsertCheck s a m = false →
      insertTeamMemberOp s a m = (s, .error .denied)) ∧
    (∀ s a t, teamInsertCheck a t = false →
      insertTeamOp s a t = (s, .error .denied)) ∧
    (∀ s a t, is_team_member s a t = false →
      (selectTasks s a).filter (fun tk => tk.team_id == t) = []) ∧
    (∀ s a cond f now, (∀ tk ∈ s.tasks, taskUpdatePolicy s a tk = false) →
      updateTasksOp s a cond f now = s) ∧
    (∀ s a cond, (∀ tk ∈ s.tasks, taskDeletePolicy s a tk = false) →
      deleteTasksOp s a cond = s) := by
  refine ⟨?_, ?_, ?_, ?_, ?_, ?_⟩
  · intro s a tk h
    simp [insertTaskOp, h]
  · intro s a m h
    simp [insertTeamMemberOp, h]
  · intro s a t h
    simp [insertTeamOp, h]
  · intro s a t h
    rw [List.filter_eq_nil_iff]
    intro tk htk
    have hmem := (List.mem_filter.mp htk).2
    have hteam : is_team_member s a tk.team_id = true := hmem
    intro hbeq
    rw [beq_iff_eq] at hbeq
    rw [hbeq, h] at hteam
    exact Bool.false_ne_true hteam
  · intro s a cond f now h
    unfold updateTasksOp
    have hmap : List.map (fun tk =>
        if cond tk && taskUpdatePolicy s a tk then
          update_updated_at_task now (f tk)
        else tk) s.tasks = List.map id s.tasks :=
      List.map_congr_left (fun tk htk => by simp [h tk htk])
    rw [hmap, List.map_id]
  · intro s a cond h
    unfold deleteTasksOp
    have hfil : List.filter (fun tk =>
        !(cond tk && taskDeletePolicy s a tk)) s.tasks = s.tasks := by
      rw [List.filter_eq_self]
      intro tk htk
      simp [h tk htk]
    rw [hfil]

/-- Witness for C9: actor 5, a stranger to team 10, is denied a task
insert, a membership insert and a team insert with the state kept,
reads an empty task list for team 10, and update/delete operations
change nothing. -/
theorem C9_witness :
    insertTaskOp ownerOnlyState 5 taskTwenty
      = (ownerOnlyState, .error .denied) ∧
    insertTeamMemberOp ownerOnlyState 5 forgedMember
      = (ownerOnlyState, .error .denied) ∧
    insertTeamOp ownerOnlyState 5 teamTen
      = (ownerOnlyState, .error .denied) ∧
    (selectTasks ownerOnlyState 5).filter (fun tk => tk.team_id == 10) = [] ∧
    updateTasksOp ownerOnlyState 5 (fun _ => true) (fun tk => tk) 9
      = ownerOnlyState ∧
    deleteTasksOp ownerOnlyState 5 (fun _ => true) = ownerOnlyState :=
  ⟨C9_denied_atomic.1 ownerOnlyState 5 taskTwenty (by decide),
   C9_denied_atomic.2.1 ownerOnlyState 5 forgedMember (by decide),
   C9_denied_atomic.2.2.1 ownerOnlyState 5 teamTen (by decide),
   C9_denied_atomic.2.2.2.1 ownerOnlyState 5 10 (by decide),
   C9_denied_atomic.2.2.2.2.1 ownerOnlyState 5 (fun _ => true)
     (fun tk => tk) 9 (by decide),
   C9_denied_atomic.2.2.2.2.2 ownerOnlyState 5 (fun _ => true) (by decide)⟩

/-- An account whose email has an empty local part and which carries
no username metadata. -/
def atUser : AuthUser :=
  { id := 42, email := "@example.com", raw_user_meta_data := [] }

/-- Claim C7 as stated is false: creating the account `atUser`
(email `@example.com`, no metadata) succeeds and inserts a Profile
row whose handle is the empty string — the derivation
COALESCE(metadata username, email local part) does not guarantee a
non-empty handle. -/
theorem C7_counterexample :
    (handle_new_user emptyState 7 0 atUser).2 = .ok () ∧
    (handle_new_user emptyState 7 0 atUser).1.profiles.map
      (fun p => p.username) = [""] ∧
    (handle_new_user emptyState 7 0 atUser).1.profiles.any
      (fun p => p.username == "") = true :=
  ⟨rfl, rfl, rfl⟩

/-- Claim C7 (amended): for every newly created account whose Profile
insert passes the uniqueness constraints, the bootstrap trigger
inserts exactly one Profile row, its handle derived from the supplied
username metadata when present and otherwise from the local part of
the email address, and that handle is unique among profiles after the
insert; the handle is not guaranteed to be non-empty. -/
theorem C7_bootstrap_profile (s : DBState) (pid : UUID) (now : Nat)
    (u : AuthUser) (s' : DBState)
    (hok : handle_new_user s pid now u = (s', .ok ())) :
    s'.profiles.length = s.profiles.length + 1 ∧
    s'.profiles.getLast? = some
      { id := pid, user_id := u.id, username := derivedHandle u,
        created_at := now, updated_at := now } ∧
    s'.profiles.countP (fun p => p.username == derivedHandle u) = 1 := by
  unfold handle_new_user at hok
  split at hok
  · exact absurd (congrArg Prod.snd hok) (by simp)
  · next hcond =>
    have hs' : s' = { s with profiles := s.profiles ++
        [{ id := pid, user_id := u.id, username := derivedHandle u,
           created_at := now, updated_at := now }] } :=
      (congrArg Prod.fst hok).symm
    subst hs'
    refine ⟨by simp, by simp, ?_⟩
    have h0 : s.profiles.countP (fun p => p.username == derivedHandle u) = 0 := by
      rw [List.countP_eq_zero]
      intro q hq hu
      exact hcond (List.any_eq_true.mpr ⟨q, hq, by simp [hu]⟩)
    simp [List.countP_append, h0, List.countP_cons]

/-- Witness for amended C7: account 8 supplies metadata username
"alice"; the bootstrap over the empty database succeeds, adds one
profile, its handle is "alice", and "alice" appears exactly once. -/
theorem C7_witness :
    ((handle_new_user emptyState 9 4
        { id := 8, email := "alice@example.com",
          raw_user_meta_data := [("username", "alice")] }).1.profiles.length
      = emptyState.profiles.length + 1) ∧
    ((handle_new_user emptyState 9 4
        { id := 8, email := "alice@example.com",
          raw_user_meta_data := [("username", "alice")] }).1.profiles.getLast?
      = some { id := 9, user_id := 8, username := "alice",
               created_at := 4, updated_at := 4 }) := by
  have h := C7_bootstrap_profile emptyState 9 4
    { id := 8, email := "alice@example.com",
      raw_user_meta_data := [("username", "alice")] }
    (handle_new_user emptyState 9 4
      { id := 8, email := "alice@example.com",
        raw_user_meta_data := [("username", "alice")] }).1
    rfl
  exact ⟨h.1, by rw [h.2.1]; decide⟩

/-- Helper: filtering by a visibility predicate does not change the
length of a further filtered selection when every row matching the
selection is visible. -/
theorem length_filter_filter_of_imp {α : Type} (vis q : α → Bool) :
    ∀ l : List α, (∀ m ∈ l, q m = true → vis m = true) →
      ((l.filter vis).filter q).length = (l.filter q).length := by
  intro l
  induction l with
  | nil => intro _; rfl
  | cons a l ih =>
    intro h
    have hl : ∀ m ∈ l, q m = true → vis m = true :=
      fun m hm => h m (List.mem_cons_of_mem a hm)
    by_cases hq : q a = true
    · have hv := h a (List.mem_cons_self a l) hq
      rw [List.filter_cons, if_pos hv, List.filter_cons, if_pos hq,
        List.filter_cons, if_pos hq, List.length_cons, List.length_cons, ih hl]
    · by_cases hv : vis a = true
      · rw [List.filter_cons, if_pos hv, List.filter_cons, if_neg hq,
          List.filter_cons, if_neg hq]
        exact ih hl
      · rw [List.filter_cons, if_neg hv, List.filter_cons, if_neg hq]
        exact ih hl

/-- The state after appending one team row and one membership row. -/
def withNewTeam (s : DBState) (t : Team) (m : TeamMember) : DBState :=
  { s with teams := s.teams ++ [t], team_members := s.team_members ++ [m] }

/-- Helper: in a state where no membership row yet references
`teamId`, appending a team row owned by the viewer together with one
membership row for `teamId` makes the dashboard member count for
`teamId` read 1, and that one row is the appended row. -/
theorem memberCount_fresh_append (s : DBState) (viewer teamId : UUID)
    (t : Team) (m : TeamMember)
    (hfresh : s.team_members.countP (fun x => x.team_id == teamId) = 0)
    (hm : m.team_id = teamId) (hto : t.owner_id = viewer) (hti : t.id = teamId) :
    memberCount (withNewTeam s t m) viewer teamId = 1 ∧
    (withNewTeam s t m).team_members.filter
      (fun x => x.team_id == teamId) = [m] := by
  have hnil : s.team_members.filter (fun x => x.team_id == teamId) = [] := by
    rw [List.filter_eq_nil_iff]
    exact List.countP_eq_zero.mp hfresh
  have hfil : (s.team_members ++ [m]).filter (fun x => x.team_id == teamId) = [m] := by
    rw [List.filter_append, hnil]
    simp [hm]
  have hown : is_team_owner (withNewTeam s t m) viewer teamId = true := by
    unfold is_team_owner withNewTeam
    simp [hto, hti]
  have hproj : (withNewTeam s t m).team_members = s.team_members ++ [m] := rfl
  refine ⟨?_, by rw [hproj, hfil]⟩
  unfold memberCount selectTeamMembers
  rw [hproj, length_filter_filter_of_imp
    (teamMemberSelectPolicy (withNewTeam s t m) viewer)
    (fun x => x.team_id == teamId) (s.team_members ++ [m]) ?prem, hfil]
  case prem =>
    intro x hx hq
    unfold teamMemberSelectPolicy
    rw [beq_iff_eq] at hq
    rw [hq, hown]
    simp
  rfl

/-- Claim C8: for every team whose viewer is a member or the owner —
every team the dashboard shows — the displayed member count equals
the number of explicit Membership rows recorded for that team; and a
team created through the CreateTeam page accounts for its owner in
that count, because the creation inserts an owner-role Membership row:
its count reads back 1 and its single Membership row names the owner
with role "owner". -/
theorem C8_member_count :
    (∀ s viewer t,
      (is_team_member s viewer t = true ∨ is_team_owner s viewer t = true) →
      memberCount s viewer t
        = (s.team_members.filter (fun m => m.team_id == t)).length) ∧
    (∀ s actor teamId memberId nm descr now s',
      s.team_members.countP (fun m => m.team_id == teamId) = 0 →
      createTeam s actor teamId memberId nm descr now = (s', .ok ()) →
      memberCount s' actor teamId = 1 ∧
      s'.team_members.filter (fun m => m.team_id == teamId)
        = [{ id := memberId, team_id := teamId, user_id := actor,
             role := "owner", invited_by := none, joined_at := now }]) := by
  have hcount : ∀ s viewer t,
      (is_team_member s viewer t = true ∨ is_team_owner s viewer t = true) →
      memberCount s viewer t
        = (s.team_members.filter (fun m => m.team_id == t)).length := by
    intro s viewer t h
    unfold memberCount selectTeamMembers
    apply length_filter_filter_of_imp
    intro m _ hq
    rw [beq_iff_eq] at hq
    unfold teamMemberSelectPolicy
    rw [hq]
    cases h with
    | inl hm => simp [hm]
    | inr ho => simp [ho]
  refine ⟨hcount, ?_⟩
  intro s actor teamId memberId nm descr now s' hfresh hok
  unfold createTeam insertTeamOp at hok
  simp only [teamInsertCheck, beq_self_eq_true, Bool.not_true,
    Bool.false_eq_true, if_false] at hok
  by_cases hdup : s.teams.any (fun q => q.id == teamId) = true
  · rw [if_pos hdup] at hok
    exact absurd (congrArg Prod.snd hok) (by simp)
  · rw [if_neg hdup] at hok
    unfold insertTeamMemberOp at hok
    simp only [teamMemberInsertCheck, beq_self_eq_true, Bool.or_true,
      Bool.not_true, Bool.false_eq_true, if_false] at hok
    by_cases hdup2 : s.team_members.any (fun q =>
        (q.team_id == teamId && q.user_id == actor) || q.id == memberId) = true
    · rw [if_pos hdup2] at hok
      exact absurd (congrArg Prod.snd hok) (by simp)
    · rw [if_neg hdup2] at hok
      have hs' := (congrArg Prod.fst hok).symm
      simp only at hs'
      subst hs'
      exact memberCount_fresh_append s actor teamId _ _ hfresh rfl rfl rfl

/-- Witness for C8: user 2 viewing team 10 sees the one explicit
membership row; creating team 11 over the empty database yields a
member count of 1, its single row naming the creator with role
"owner". -/
theorem C8_witness :
    memberCount memberState 2 10
      = (memberState.team_members.filter (fun m => m.team_id == 10)).length ∧
    memberCount (createTeam emptyState 1 11 32 "Eng" none 0).1 1 11 = 1 ∧
    (createTeam emptyState 1 11 32 "Eng" none 0).1.team_members.filter
        (fun m => m.team_id == 11)
      = [{ id := 32, team_id := 11, user_id := 1, role := "owner",
           invited_by := none, joined_at := 0 }] := by
  have ha := C8_member_count.1 memberState 2 10 (Or.inl (by decide))
  have hb := C8_member_count.2 emptyState 1 11 32 "Eng" none 0
    (createTeam emptyState 1 11 32 "Eng" none 0).1 (by decide) rfl
  exact ⟨ha, hb.1, hb.2⟩

end SyncSpace
